import Mathlib

/-!
Necrologist Horde Sync — verification of the sync engine.

Shallow embedding of the module's sync core (`src/scripts/effects.js`,
`src/scripts/sync.js`, `src/scripts/utils.js`).  Pure JS functions become
Lean functions; the stateful orchestration (`syncSummonerToHorde`,
`syncHordeToSummoner`, `linkHorde`) becomes explicit state passing over the
guard set, the actor documents and a write oracle that decides whether each
host-store write succeeds or throws.  JS numbers on the stat paths are
integers in this module, embedded as `Int`.
-/

namespace HordeSync

/-! Constants (utils.js) -/

def MODULE_ID : String := "necrologist-horde-sync"

def EFFECT_SLUG : String := "necrologist-bond"

def EFFECT_LABEL : String := "Necrologist Bond"

/-- Modelled from the spec: `utils.js` in the current revision also exports
`SKILLS`, the enumerated skill list iterated by `calculateModifiers`,
`createBondEffectData` and `updateEffectModifiers`; that revision of
`utils.js` is not among the source files.  The spec only says "one entry per
skill name in an enumerated skill list", so the list is instantiated with the
PF2e skill names.  Every theorem below depends only on the list being
duplicate-free and disjoint from the fixed selectors
`ac`/`fortitude`/`reflex`/`will`/`hp`. -/
def SKILLS : List String :=
  ["acrobatics", "arcana", "athletics", "crafting", "deception", "diplomacy",
   "intimidation", "medicine", "nature", "occultism", "performance",
   "religion", "society", "stealth", "survival", "thievery"]

/-! Data model -/

/-- A PF2e rule element as pushed by this module:
`{ key: "FlatModifier", selector, value, label }`.  `value` is `Option` so the
read site can keep the source's `rule.value ?? 0`. -/
structure Rule where
  key : String
  selector : String
  value : Option Int
  label : String
  deriving DecidableEq, Repr

/-- Sync options stored on the bond effect (`effects.js`). -/
structure SyncOptions where
  ac : Bool
  saves : Bool
  skills : Bool
  hp : Bool
  deriving DecidableEq, Repr

/-- JS constant `DEFAULT_SYNC_OPTIONS = { ac: true, saves: true, skills: true, hp: true }`. -/
def DEFAULT_SYNC_OPTIONS : SyncOptions :=
  { ac := true, saves := true, skills := true, hp := true }

/-- An embedded item document.  Only the fields this module reads or writes
are modelled: `type`, `system.slug`, `system.rules`,
`system.description.value`, and the module flags `summonerId` and
`syncOptions`. -/
structure Item where
  type : String
  slug : String
  rules : List Rule
  description : String
  flagSummonerId : Option String
  flagSyncOptions : Option SyncOptions
  deriving DecidableEq, Repr

/-- An actor document.  Leaf stat paths that the source reads through the
optional-chaining `?.` operator are `Option Int`; `skills` models the
`system.skills` object as an association list from skill slug to
`totalModifier`. -/
structure Actor where
  id : String
  name : String
  isOwner : Bool
  items : List Item
  /-- Path `system.attributes.ac.value`. -/
  ac : Option Int
  /-- Path `system.attributes.hp.value`. -/
  hpValue : Option Int
  /-- Path `system.attributes.hp.temp`. -/
  hpTemp : Option Int
  /-- Path `system.attributes.hp.max`. -/
  hpMax : Option Int
  /-- Path `system.saves.fortitude.totalModifier`. -/
  fortitude : Option Int
  /-- Path `system.saves.reflex.totalModifier`. -/
  reflex : Option Int
  /-- Path `system.saves.will.totalModifier`. -/
  will : Option Int
  /-- Path `system.skills[sk].totalModifier`. -/
  skills : List (String × Int)
  /-- Path `flags[MODULE_ID].lastSync`. -/
  lastSync : Option Int
  deriving DecidableEq, Repr

/-! effects.js -/

/-- The predicate of `findBondEffect`:
`item.type === "effect" && item.system?.slug === EFFECT_SLUG`. -/
def isBondItem (i : Item) : Bool :=
  i.type == "effect" && i.slug == EFFECT_SLUG

/-- JS `findBondEffect(horde)`: first matching embedded item, else null. -/
def findBondEffect (horde : Actor) : Option Item :=
  horde.items.find? isBondItem

/-- JS `findLinkedSummoner(horde)`. -/
def findLinkedSummoner (horde : Actor) : Option String :=
  (findBondEffect horde).bind (fun e => e.flagSummonerId)

/-- JS `getSyncOptions(horde)`:
`effect?.flags?.[MODULE_ID]?.syncOptions ?? { ...DEFAULT_SYNC_OPTIONS }`. -/
def getSyncOptions (horde : Actor) : SyncOptions :=
  ((findBondEffect horde).bind (fun e => e.flagSyncOptions)).getD DEFAULT_SYNC_OPTIONS

/-- JS `buildSyncDescription(syncOptions)`.  The JS parameter has no default:
calling it with `undefined` throws a TypeError at `syncOptions.ac`; the
callers below model that throw explicitly. -/
def buildSyncDescription (syncOptions : SyncOptions) : String :=
  let syncedParts : List String :=
    (if syncOptions.ac then ["AC"] else []) ++
    (if syncOptions.saves then ["saves"] else []) ++
    (if syncOptions.skills then ["skills"] else []) ++
    (if syncOptions.hp then ["HP pool"] else [])
  if syncedParts.length > 0 then
    "<p>This creature is linked to a Necrologist summoner and syncs: " ++
      String.intercalate ", " syncedParts ++ ".</p>"
  else
    "<p>This creature is linked to a Necrologist summoner.</p>"

/-- Helper: a fresh all-zero FlatModifier rule for one selector. -/
def zeroRule (selector : String) : Rule :=
  { key := "FlatModifier", selector := selector, value := some 0, label := EFFECT_LABEL }

/-- JS `createBondEffectData(summonerId, syncOptions = DEFAULT_SYNC_OPTIONS)`; the JS default parameter is supplied explicitly by callers here. -/
def createBondEffectData (summonerId : String)
    (syncOptions : SyncOptions) : Item :=
  { type := "effect"
    slug := EFFECT_SLUG
    rules :=
      (if syncOptions.ac then [zeroRule "ac"] else []) ++
      (if syncOptions.saves then
        [zeroRule "fortitude", zeroRule "reflex", zeroRule "will"] else []) ++
      (if syncOptions.skills then SKILLS.map zeroRule else []) ++
      (if syncOptions.hp then [zeroRule "hp"] else [])
    description := buildSyncDescription syncOptions
    flagSummonerId := some summonerId
    flagSyncOptions := some syncOptions }

/-- The computed `modifiers` object of `calculateModifiers`.  In JS it is one
object whose keys are the enabled category selectors; since the skill slugs
are disjoint from `ac`/`fortitude`/`reflex`/`will`/`hp` the object is split
here into one `Option Int` per fixed category (`none` = key absent, i.e.
`undefined`) plus an association list for the skill keys. -/
structure StatModifiers where
  ac : Option Int
  fortitude : Option Int
  reflex : Option Int
  will : Option Int
  skills : List (String × Int)
  hp : Option Int
  deriving DecidableEq, Repr

/-- The `currentMods` object right after its initialisation block in
`calculateModifiers`: a key per enabled category selector, each mapped to 0.
Key membership of a JS object is modelled as the function being `some`;
this is faithful because the four `if` blocks insert disjoint key sets. -/
def initCurrentMods (opts : SyncOptions) : String → Option Int := fun sel =>
  if opts.ac && sel == "ac" then some 0
  else if opts.saves && (sel == "fortitude" || sel == "reflex" || sel == "will") then some 0
  else if opts.skills && SKILLS.contains sel then some 0
  else if opts.hp && sel == "hp" then some 0
  else none

/-- One iteration of the rule scan of `calculateModifiers`: for a rule with
`key === "FlatModifier"`, `label === EFFECT_LABEL` and
`rule.selector in currentMods`, set `currentMods[rule.selector] = rule.value ?? 0`;
otherwise leave `currentMods` unchanged. -/
def applyRuleStep (acc : String → Option Int) (rule : Rule) :
    String → Option Int :=
  if rule.key == "FlatModifier" && rule.label == EFFECT_LABEL then
    match acc rule.selector with
    | some _ => fun sel =>
        if sel == rule.selector then some (rule.value.getD 0) else acc sel
    | none => acc
  else acc

/-- The full rule scan (`for (const rule of effect.system.rules) { ... }`). -/
def applyRules (rules : List Rule) (currentMods : String → Option Int) :
    String → Option Int :=
  rules.foldl applyRuleStep currentMods

/-- The last `value ?? 0` among the qualifying FlatModifier rules for one
selector, starting from `v` — the per-selector content of the rule scan. -/
def lastValue (rules : List Rule) (sel : String) (v : Int) : Int :=
  rules.foldl
    (fun acc r =>
      if r.key == "FlatModifier" && r.label == EFFECT_LABEL && r.selector == sel then
        r.value.getD 0
      else acc)
    v

/-- The rule list `calculateModifiers` scans: `effect?.system?.rules` of the
horde's bond effect (absent effect scans nothing). -/
def bondRules (horde : Actor) : List Rule :=
  match findBondEffect horde with
  | some e => e.rules
  | none => []

/-- JS `calculateModifiers(summoner, horde, syncOptions = DEFAULT_SYNC_OPTIONS)`; the JS default parameter is supplied explicitly by callers here.
Per enabled category: `summonerValue - (hordeEffectiveValue - currentlyApplied)`,
with the source's `?? 10` default for AC and `?? 0` elsewhere. -/
def calculateModifiers (summoner horde : Actor)
    (syncOptions : SyncOptions) : StatModifiers :=
  let currentMods := applyRules (bondRules horde) (initCurrentMods syncOptions)
  { ac :=
      if syncOptions.ac then
        some ((summoner.ac.getD 10) -
          ((horde.ac.getD 10) - (currentMods "ac").getD 0))
      else none
    fortitude :=
      if syncOptions.saves then
        some ((summoner.fortitude.getD 0) -
          ((horde.fortitude.getD 0) - (currentMods "fortitude").getD 0))
      else none
    reflex :=
      if syncOptions.saves then
        some ((summoner.reflex.getD 0) -
          ((horde.reflex.getD 0) - (currentMods "reflex").getD 0))
      else none
    will :=
      if syncOptions.saves then
        some ((summoner.will.getD 0) -
          ((horde.will.getD 0) - (currentMods "will").getD 0))
      else none
    skills :=
      if syncOptions.skills then
        SKILLS.map (fun sk =>
          (sk, (summoner.skills.lookup sk).getD 0 -
            ((horde.skills.lookup sk).getD 0 - (currentMods sk).getD 0)))
      else []
    hp :=
      if syncOptions.hp then
        some ((summoner.hpMax.getD 0) -
          ((horde.hpMax.getD 0) - (currentMods "hp").getD 0))
      else none }

/-- A FlatModifier rule carrying a computed offset. -/
def modRule (selector : String) (v : Int) : Rule :=
  { key := "FlatModifier", selector := selector, value := some v, label := EFFECT_LABEL }

/-- The rule list built by `updateEffectModifiers`: one entry per enabled
category whose modifier is defined (`!== undefined`), in source push order. -/
def buildRules (modifiers : StatModifiers) (syncOptions : SyncOptions) : List Rule :=
  (if syncOptions.ac then
    match modifiers.ac with
    | some v => [modRule "ac" v]
    | none => []
   else []) ++
  (if syncOptions.saves then
    (match modifiers.fortitude with
     | some v => [modRule "fortitude" v]
     | none => []) ++
    (match modifiers.reflex with
     | some v => [modRule "reflex" v]
     | none => []) ++
    (match modifiers.will with
     | some v => [modRule "will" v]
     | none => [])
   else []) ++
  (if syncOptions.skills then
    SKILLS.filterMap (fun sk =>
      match modifiers.skills.lookup sk with
      | some v => some (modRule sk v)
      | none => none)
   else []) ++
  (if syncOptions.hp then
    match modifiers.hp with
    | some v => [modRule "hp" v]
    | none => []
   else [])

/-- Spec-side reading of the claims' "currently applied offset" for one
category selector: the value the rule scan of `calculateModifiers` ends up
with for that selector (0 when the selector is untracked or no bond rule
carries it).  Definitionally the `(currentMods sel).getD 0` that
`calculateModifiers` uses. -/
def appliedOffset (horde : Actor) (opts : SyncOptions) (sel : String) : Int :=
  (applyRules (bondRules horde) (initCurrentMods opts) sel).getD 0

/-- Spec-side description of the persisted rule list's shape: one
`("FlatModifier", selector, EFFECT_LABEL)` tag per enabled category, in the
Modifier Writer's push order. -/
def ruleTags (opts : SyncOptions) : List (String × String × String) :=
  (if opts.ac then [("FlatModifier", "ac", EFFECT_LABEL)] else []) ++
  (if opts.saves then
    [("FlatModifier", "fortitude", EFFECT_LABEL),
     ("FlatModifier", "reflex", EFFECT_LABEL),
     ("FlatModifier", "will", EFFECT_LABEL)] else []) ++
  (if opts.skills then
    SKILLS.map (fun sk => ("FlatModifier", sk, EFFECT_LABEL)) else []) ++
  (if opts.hp then [("FlatModifier", "hp", EFFECT_LABEL)] else [])

/-- Oracle deciding whether each host-store write in one run succeeds.
A `false` entry means the corresponding `await ...update(...)` (or create)
call rejects/throws. -/
structure WriteOracle where
  /-- Write `effect.update({ "system.rules": rules })` inside `updateEffectModifiers`. -/
  effectUpdateOk : Bool
  /-- Write `horde.update(updateData)` inside `syncSummonerToHorde`. -/
  hordeUpdateOk : Bool
  /-- Write `summoner.update({...hp...})` inside `syncHordeToSummoner`. -/
  summonerUpdateOk : Bool
  /-- Write `effect.update({...})` inside the update branch of `linkHorde`. -/
  effectLinkUpdateOk : Bool
  /-- Write `horde.createEmbeddedDocuments("Item", [effectData])` inside `linkHorde`. -/
  createDocOk : Bool
  deriving DecidableEq, Repr

/-- JS `updateEffectModifiers(effect, modifiers, syncOptions = DEFAULT_SYNC_OPTIONS)`; the JS default parameter is supplied explicitly by callers here:
builds the full replacement rule list and writes it.  A store-write failure is
caught inside this function, logged, and turned into `false`; the document is
then unchanged.  Returns the success flag and the resulting effect document. -/
def updateEffectModifiers (o : WriteOracle) (effect : Item)
    (modifiers : StatModifiers)
    (syncOptions : SyncOptions) : Bool × Item :=
  let rules := buildRules modifiers syncOptions
  if o.effectUpdateOk then
    (true, { effect with rules := rules })
  else
    (false, effect)

/-! sync.js -/

/-- Replace the first bond-effect item (the one `findBondEffect` returns)
with an updated document, modelling that `effect.update(...)` mutates the
embedded item in place. -/
def replaceFirstBond : List Item → Item → List Item
  | [], _ => []
  | i :: rest, e' =>
    if isBondItem i then e' :: rest else i :: replaceFirstBond rest e'

/-- The horde document after its bond effect was mutated in place. -/
def setBondItem (h : Actor) (e' : Item) : Actor :=
  { h with items := replaceFirstBond h.items e' }

/-- JS `Set.delete(id)` on the guard set (modelled as a list used as a set):
afterwards the identifier is no longer contained. -/
def guardDelete (guard : List String) (id : String) : List String :=
  guard.filter (fun x => x != id)

/-- JS `syncSummonerToHorde(summoner, horde)` (sync.js, current revision).
`none` actors model JS null/undefined arguments.  `now` is the value
`Date.now()` returns during the run.  Result: the returned success boolean,
the guard set (`syncingActors`) after the call, and the horde document after
the call.  The `Bool` result of `updateEffectModifiers` is discarded, exactly
as the un-checked `await updateEffectModifiers(...)` in the source; only the
mutated document (`.2`) is threaded through.  The only statement inside the
`try` that can throw is `await horde.update(updateData)`; the `catch` turns
it into `false` and the `finally` always deletes the guard entry. -/
def syncSummonerToHorde (o : WriteOracle) (now : Int)
    (summoner horde : Option Actor) (guard : List String) :
    Bool × List String × Option Actor :=
  match summoner, horde with
  | none, _ => (false, guard, horde)
  | some _, none => (false, guard, none)
  | some s, some h =>
    if guard.contains h.id then (false, guard, some h)
    else
      match findBondEffect h with
      | none => (false, guard, some h)
      | some effect =>
        let guard1 := h.id :: guard
        let syncOptions := getSyncOptions h
        let modifiers := calculateModifiers s h syncOptions
        let effect1 := (updateEffectModifiers o effect modifiers syncOptions).2
        let h1 := setBondItem h effect1
        if o.hordeUpdateOk then
          let h2 := { h1 with
            lastSync := some now
            hpValue := if syncOptions.hp then some (s.hpValue.getD 0) else h1.hpValue
            hpTemp := if syncOptions.hp then some (s.hpTemp.getD 0) else h1.hpTemp }
          (true, guardDelete guard1 h.id, some h2)
        else
          (false, guardDelete guard1 h.id, some h1)

/-- JS `syncHordeToSummoner(horde, summoner)` (sync.js, current revision).
Result: success boolean, guard set after the call, and the summoner document
after the call.  The only throwing statement inside the `try` is
`await summoner.update({...})`. -/
def syncHordeToSummoner (o : WriteOracle)
    (horde summoner : Option Actor) (guard : List String) :
    Bool × List String × Option Actor :=
  match horde, summoner with
  | _, none => (false, guard, none)
  | none, some s => (false, guard, some s)
  | some h, some s =>
    let syncOptions := getSyncOptions h
    if !syncOptions.hp then (false, guard, some s)
    else if guard.contains s.id then (false, guard, some s)
    else
      let guard1 := s.id :: guard
      if o.summonerUpdateOk then
        (true, guardDelete guard1 s.id,
          some { s with
            hpValue := some (h.hpValue.getD 0)
            hpTemp := some (h.hpTemp.getD 0) })
      else
        (false, guardDelete guard1 s.id, some s)

/-- The world visible to `linkHorde`: the `game.actors` registry and the
current user's GM flag. -/
structure Game where
  actors : List Actor
  isGM : Bool
  deriving DecidableEq, Repr

/-- JS `game.actors.get(id)`. -/
def getActor (g : Game) (id : String) : Option Actor :=
  g.actors.find? (fun a => a.id == id)

/-- Store an updated actor document back into the registry (live-document
mutation: the entry with the same id is replaced). -/
def setActor (g : Game) (a : Actor) : Game :=
  { g with actors := g.actors.map (fun b => if b.id == a.id then a else b) }

def setActorOpt (g : Game) : Option Actor → Game
  | some a => setActor g a
  | none => g

/-- JS `canModifyActor(actor)` (utils.js):
`if (!actor) return false; return game.user?.isGM || actor.isOwner;`. -/
def canModifyActor (isGM : Bool) : Option Actor → Bool
  | none => false
  | some a => isGM || a.isOwner

/-- JS `linkHorde(summonerId, hordeId, syncOptions)` (sync.js, current revision).
`syncOptions = none` models the argument being omitted (`undefined`).

On the already-linked branch the update object literal evaluates
`buildSyncDescription(syncOptions)` before `effect.update` is invoked; when
`syncOptions` is `undefined` that dereferences `syncOptions.ac` and throws a
TypeError, which the `catch` block turns into `false` with no store write
having happened.  On the create branch `createBondEffectData` has a default
parameter, so an omitted `syncOptions` falls back to `DEFAULT_SYNC_OPTIONS`.
The boolean returned by the nested `syncSummonerToHorde` is ignored. -/
def linkHorde (o : WriteOracle) (now : Int) (g : Game)
    (summonerId hordeId : String) (syncOptions : Option SyncOptions)
    (guard : List String) : Bool × Game × List String :=
  if summonerId == hordeId then (false, g, guard)
  else
    match getActor g summonerId, getActor g hordeId with
    | none, _ => (false, g, guard)
    | some _, none => (false, g, guard)
    | some s, some h =>
      if !(canModifyActor g.isGM (some s)) || !(canModifyActor g.isGM (some h)) then
        (false, g, guard)
      else
        match findBondEffect h with
        | some e =>
          match syncOptions with
          | none =>
            -- TypeError thrown by buildSyncDescription(undefined), caught below
            (false, g, guard)
          | some opts =>
            if o.effectLinkUpdateOk then
              let e1 := { e with
                flagSummonerId := some summonerId
                flagSyncOptions := some opts
                description := buildSyncDescription opts }
              let h1 := setBondItem h e1
              let g1 := setActor g h1
              let res := syncSummonerToHorde o now (some s) (some h1) guard
              (true, setActorOpt g1 res.2.2, res.2.1)
            else (false, g, guard)
        | none =>
          if o.createDocOk then
            let e1 := createBondEffectData summonerId (syncOptions.getD DEFAULT_SYNC_OPTIONS)
            let h1 := { h with items := h.items ++ [e1] }
            let g1 := setActor g h1
            let res := syncSummonerToHorde o now (some s) (some h1) guard
            (true, setActorOpt g1 res.2.2, res.2.1)
          else (false, g, guard)

/-! Concrete fixtures used by the witness theorems below. -/

/-- The all-disabled sync option set. -/
def allOff : SyncOptions := ⟨false, false, false, false⟩

/-- Damaged horde used in the C7 witness: current HP 3, temp HP 1, max 20. -/
def c7Horde : Actor :=
  { id := "h1", name := "Horde", isOwner := true
    items := [{ type := "effect", slug := EFFECT_SLUG, rules := [],
                description := "", flagSummonerId := some "s1",
                flagSyncOptions := some ⟨true, true, true, true⟩ }]
    ac := some 12, hpValue := some 3, hpTemp := some 1, hpMax := some 20
    fortitude := some 1, reflex := some 2, will := some 3
    skills := [], lastSync := none }

/-- Summoner used in the C7 witness: max HP 35, which must stay 35. -/
def c7Summoner : Actor :=
  { id := "s1", name := "Summoner", isOwner := true, items := []
    ac := some 19, hpValue := some 30, hpTemp := some 0, hpMax := some 35
    fortitude := some 5, reflex := some 6, will := some 7
    skills := [], lastSync := none }

/-- Unlinked horde used in the C10 witness (no items at all). -/
def c10Horde : Actor :=
  { id := "h2", name := "Stray", isOwner := true, items := []
    ac := some 14, hpValue := some 9, hpTemp := some 2, hpMax := some 25
    fortitude := none, reflex := none, will := none
    skills := [], lastSync := none }

/-- Oracle in which exactly the modifier write (`effect.update` inside
`updateEffectModifiers`) fails. -/
def c2Oracle : WriteOracle :=
  { effectUpdateOk := false, hordeUpdateOk := true, summonerUpdateOk := true
    effectLinkUpdateOk := true, createDocOk := true }

/-- Bond effect on the C2 horde. -/
def c2Bond : Item :=
  { type := "effect", slug := EFFECT_SLUG, rules := [],
    description := "", flagSummonerId := some "s1",
    flagSyncOptions := some ⟨true, false, false, false⟩ }

def c2Horde : Actor :=
  { id := "h1", name := "Horde", isOwner := true, items := [c2Bond]
    ac := some 12, hpValue := some 10, hpTemp := some 0, hpMax := some 20
    fortitude := some 1, reflex := some 2, will := some 3
    skills := [], lastSync := none }

def c2Summoner : Actor :=
  { id := "s1", name := "Summoner", isOwner := true, items := []
    ac := some 19, hpValue := some 30, hpTemp := some 0, hpMax := some 35
    fortitude := some 5, reflex := some 6, will := some 7
    skills := [], lastSync := none }

/-- Bond effect with all categories disabled and a stale nonempty rule list,
used in the C9 witness. -/
def c9Bond : Item :=
  { type := "effect", slug := EFFECT_SLUG, rules := [modRule "ac" 5],
    description := "", flagSummonerId := some "s1",
    flagSyncOptions := some allOff }

def c9Horde : Actor :=
  { id := "h9", name := "Horde", isOwner := true, items := [c9Bond]
    ac := some 17, hpValue := some 6, hpTemp := some 2, hpMax := some 20
    fortitude := some 1, reflex := some 2, will := some 3
    skills := [], lastSync := none }

/-- The game registry used in the C3 witness: a summoner `s1` and a horde
`h1` already linked to `s0` with a stored non-default option set. -/
def c3Game : Game :=
  { actors :=
      [{ id := "s1", name := "Summoner", isOwner := true, items := []
         ac := some 19, hpValue := some 30, hpTemp := some 0, hpMax := some 35
         fortitude := some 5, reflex := some 6, will := some 7
         skills := [], lastSync := none },
       { id := "h1", name := "Horde", isOwner := true
         items := [{ type := "effect", slug := EFFECT_SLUG, rules := [],
                     description := "", flagSummonerId := some "s0",
                     flagSyncOptions := some ⟨true, false, false, true⟩ }]
         ac := some 12, hpValue := some 10, hpTemp := some 0, hpMax := some 20
         fortitude := some 1, reflex := some 2, will := some 3
         skills := [], lastSync := none }]
    isGM := true }

/-- Summoner for the C1 witness. -/
def c1Summoner : Actor :=
  { id := "s1", name := "Summoner", isOwner := true, items := []
    ac := some 19, hpValue := some 30, hpTemp := some 0, hpMax := some 35
    fortitude := some 5, reflex := some 6, will := some 7
    skills := [("athletics", 8)], lastSync := none }

/-- First-run horde state for the C1 witness: base stats, zero applied. -/
def c1Horde0 : Actor :=
  { id := "h1", name := "Horde", isOwner := true
    items := [{ type := "effect", slug := EFFECT_SLUG, rules := [],
                description := "", flagSummonerId := some "s1",
                flagSyncOptions := some DEFAULT_SYNC_OPTIONS }]
    ac := some 12, hpValue := some 10, hpTemp := some 0, hpMax := some 20
    fortitude := some 1, reflex := some 2, will := some 3
    skills := [("athletics", 2)], lastSync := none }

/-- Second-run horde state for the C1 witness: the bond carries the rules the
first run wrote, and the effective stats include them (they now equal the
summoner's). -/
def c1Horde1 : Actor :=
  { id := "h1", name := "Horde", isOwner := true
    items := [{ type := "effect", slug := EFFECT_SLUG,
                rules := buildRules
                  (calculateModifiers c1Summoner c1Horde0 DEFAULT_SYNC_OPTIONS)
                  DEFAULT_SYNC_OPTIONS,
                description := "", flagSummonerId := some "s1",
                flagSyncOptions := some DEFAULT_SYNC_OPTIONS }]
    ac := some 19, hpValue := some 30, hpTemp := some 0, hpMax := some 35
    fortitude := some 5, reflex := some 6, will := some 7
    skills := [("athletics", 8)], lastSync := some 0 }

/-! Helper lemmas -/

theorem filter_ne_of_not_mem (l : List String) (a : String)
    (h : a ∉ l) : l.filter (fun x => x != a) = l := by
  rw [List.filter_eq_self]
  intro b hb
  simp only [bne_iff_ne, ne_eq]
  intro he
  exact h (he ▸ hb)

/-- Adding a fresh identifier to the guard set and deleting it afterwards
leaves the set unchanged. -/
theorem guardDelete_cons_self (guard : List String) (id : String)
    (h : id ∉ guard) : guardDelete (id :: guard) id = guard := by
  simp only [guardDelete, List.filter_cons, bne_self_eq_false]
  simp only [Bool.false_eq_true, if_false]
  exact filter_ne_of_not_mem guard id h

/-- C6 helper: the guard set after any `syncSummonerToHorde` call equals the
guard set before. -/
theorem syncSummonerToHorde_guard (o : WriteOracle) (now : Int)
    (s h : Option Actor) (guard : List String) :
    (syncSummonerToHorde o now s h guard).2.1 = guard := by
  match s, h with
  | none, h => rfl
  | some s, none => rfl
  | some s, some h =>
    simp only [syncSummonerToHorde]
    by_cases hc : h.id ∈ guard
    · simp [hc]
    · simp only [List.elem_eq_mem, hc, decide_False, Bool.false_eq_true, if_false]
      cases hfb : findBondEffect h with
      | none => simp
      | some e =>
        by_cases ho : o.hordeUpdateOk <;>
          simp [ho, guardDelete_cons_self guard h.id hc]

/-- C6 helper: the guard set after any `syncHordeToSummoner` call equals the
guard set before. -/
theorem syncHordeToSummoner_guard (o : WriteOracle)
    (h s : Option Actor) (guard : List String) :
    (syncHordeToSummoner o h s guard).2.1 = guard := by
  match h, s with
  | none, none => rfl
  | some h, none => rfl
  | none, some s => rfl
  | some h, some s =>
    simp only [syncHordeToSummoner]
    by_cases hhp : (getSyncOptions h).hp
    · by_cases hc : s.id ∈ guard
      · simp [hhp, hc]
      · by_cases ho : o.summonerUpdateOk <;>
          simp [hhp, hc, ho, guardDelete_cons_self guard s.id hc]
    · simp [hhp]

/-! C6 — unconditional guard release -/

/-- Claim C6: Every terminating call of `syncSummonerToHorde` and
`syncHordeToSummoner` leaves the `syncingActors` guard set exactly as it was
before the call, on every path: early no-op returns, successful sync, and
failure of the compute/write step — so no entity is permanently wedged out of
future syncs. -/
theorem c6_guard_always_released (o : WriteOracle) (now : Int)
    (a b : Option Actor) (guard : List String) :
    (syncSummonerToHorde o now a b guard).2.1 = guard ∧
    (syncHordeToSummoner o a b guard).2.1 = guard :=
  ⟨syncSummonerToHorde_guard o now a b guard,
   syncHordeToSummoner_guard o a b guard⟩

/-! C5 — guard exclusivity with atomicity on rejection -/

/-- Claim C5: If the target horde's identifier is already in the guard set,
`syncSummonerToHorde` returns `false` and performs no mutation: the guard set
and the horde document come back exactly as they were (no rule write, no HP
write, no `lastSync` stamp).  Symmetrically, `syncHordeToSummoner` targeting
a guarded summoner returns `false` without mutating the summoner. -/
theorem c5_guard_exclusivity (o : WriteOracle) (now : Int)
    (s h : Option Actor) (hordeDoc summonerDoc : Actor) (guard : List String)
    (hh : hordeDoc.id ∈ guard) (hs : summonerDoc.id ∈ guard) :
    syncSummonerToHorde o now s (some hordeDoc) guard = (false, guard, some hordeDoc) ∧
    syncHordeToSummoner o h (some summonerDoc) guard = (false, guard, some summonerDoc) := by
  constructor
  · match s with
    | none => rfl
    | some s => simp [syncSummonerToHorde, hh]
  · match h with
    | none => rfl
    | some h =>
      simp only [syncHordeToSummoner]
      by_cases hhp : (getSyncOptions h).hp <;> simp [hhp, hs]

/-- Witness for C5 at a concrete guarded state. -/
theorem c5_guard_exclusivity_witness :
    ("h1" ∈ ["h1", "s1"]) ∧ ("s1" ∈ ["h1", "s1"]) ∧
    (syncSummonerToHorde ⟨true, true, true, true, true⟩ 0 none
        (some { id := "h1", name := "H", isOwner := true, items := [],
                ac := none, hpValue := none, hpTemp := none, hpMax := none,
                fortitude := none, reflex := none, will := none,
                skills := [], lastSync := none }) ["h1", "s1"] =
      (false, ["h1", "s1"],
        some { id := "h1", name := "H", isOwner := true, items := [],
               ac := none, hpValue := none, hpTemp := none, hpMax := none,
               fortitude := none, reflex := none, will := none,
               skills := [], lastSync := none })) := by
  refine ⟨by decide, by decide, ?_⟩
  exact (c5_guard_exclusivity ⟨true, true, true, true, true⟩ 0 none none
    { id := "h1", name := "H", isOwner := true, items := [],
      ac := none, hpValue := none, hpTemp := none, hpMax := none,
      fortitude := none, reflex := none, will := none,
      skills := [], lastSync := none }
    { id := "s1", name := "S", isOwner := true, items := [],
      ac := none, hpValue := none, hpTemp := none, hpMax := none,
      fortitude := none, reflex := none, will := none,
      skills := [], lastSync := none }
    ["h1", "s1"] (by decide) (by decide)).1

/-! C7 — directional HP frame condition -/

/-- Successful-path helper for the horde→summoner direction: with both actors
present, HP enabled, the summoner unguarded and the store write succeeding,
the call returns `true`, restores the guard set, and replaces exactly the
summoner's current HP and temp HP with the horde's (structure-literal update:
every other summoner field, in particular `hpMax`, is taken from `s`). -/
theorem syncHordeToSummoner_success (o : WriteOracle) (h s : Actor)
    (guard : List String)
    (hhp : (getSyncOptions h).hp = true)
    (hg : s.id ∉ guard)
    (hw : o.summonerUpdateOk = true) :
    syncHordeToSummoner o (some h) (some s) guard =
      (true, guard,
        some { s with
          hpValue := some (h.hpValue.getD 0)
          hpTemp := some (h.hpTemp.getD 0) }) := by
  simp [syncHordeToSummoner, hhp, hg, hw, guardDelete_cons_self guard s.id hg]

/-- Claim C7: For every successful run of `syncHordeToSummoner` (both actors
present, the HP category enabled for the horde's link, the summoner not
guarded, the store write accepted), the summoner document afterwards is the
input summoner with only `hpValue` and `hpTemp` replaced by the horde's
current and temporary HP; every other field — in particular `hpMax` — is
unchanged, the call returns `true`, and the guard set is restored. -/
theorem c7_directional_hp (o : WriteOracle) (h s : Actor)
    (guard : List String)
    (hhp : (getSyncOptions h).hp = true)
    (hg : s.id ∉ guard)
    (hw : o.summonerUpdateOk = true) :
    syncHordeToSummoner o (some h) (some s) guard =
      (true, guard,
        some { s with
          hpValue := some (h.hpValue.getD 0)
          hpTemp := some (h.hpTemp.getD 0) }) ∧
    ∀ s' : Actor,
      (syncHordeToSummoner o (some h) (some s) guard).2.2 = some s' →
        s'.hpMax = s.hpMax ∧ s'.id = s.id ∧ s'.name = s.name ∧
        s'.isOwner = s.isOwner ∧ s'.items = s.items ∧ s'.ac = s.ac ∧
        s'.fortitude = s.fortitude ∧ s'.reflex = s.reflex ∧
        s'.will = s.will ∧ s'.skills = s.skills ∧ s'.lastSync = s.lastSync := by
  have hmain := syncHordeToSummoner_success o h s guard hhp hg hw
  refine ⟨hmain, ?_⟩
  intro s' hs'
  rw [hmain] at hs'
  simp only [Option.some.injEq] at hs'
  subst hs'
  exact ⟨rfl, rfl, rfl, rfl, rfl, rfl, rfl, rfl, rfl, rfl, rfl⟩

/-- Witness for C7 at a concrete damaged horde. -/
theorem c7_directional_hp_witness :
    ((getSyncOptions c7Horde).hp = true ∧ c7Summoner.id ∉ ([] : List String)) ∧
    syncHordeToSummoner ⟨true, true, true, true, true⟩
        (some c7Horde) (some c7Summoner) [] =
      (true, [],
        some { c7Summoner with hpValue := some 3, hpTemp := some 1 }) := by
  refine ⟨⟨by decide, by decide⟩, ?_⟩
  have := (c7_directional_hp ⟨true, true, true, true, true⟩ c7Horde c7Summoner []
    (by decide) (by decide) (by decide)).1
  simpa [c7Horde] using this

/-! C10 — horde→summoner sync does not require a Link -/

/-- Claim C10: If the horde has no bond effect at all, `getSyncOptions` falls
back to the all-enabled default set, so `syncHordeToSummoner` does not reject
on the missing link: provided the summoner is not guarded and the store write
succeeds, it copies the horde's current and temporary HP onto the summoner
and returns `true`, even though the two entities were never linked. -/
theorem c10_no_link_required (o : WriteOracle) (h s : Actor)
    (guard : List String)
    (hnb : findBondEffect h = none)
    (hg : s.id ∉ guard)
    (hw : o.summonerUpdateOk = true) :
    getSyncOptions h = DEFAULT_SYNC_OPTIONS ∧
    syncHordeToSummoner o (some h) (some s) guard =
      (true, guard,
        some { s with
          hpValue := some (h.hpValue.getD 0)
          hpTemp := some (h.hpTemp.getD 0) }) := by
  have hopts : getSyncOptions h = DEFAULT_SYNC_OPTIONS := by
    simp [getSyncOptions, hnb]
  refine ⟨hopts, ?_⟩
  exact syncHordeToSummoner_success o h s guard
    (by rw [hopts]; rfl) hg hw

/-- Witness for C10 at a concrete never-linked horde. -/
theorem c10_no_link_required_witness :
    (findBondEffect c10Horde = none ∧ c7Summoner.id ∉ ([] : List String)) ∧
    getSyncOptions c10Horde = DEFAULT_SYNC_OPTIONS ∧
    syncHordeToSummoner ⟨true, true, true, true, true⟩
        (some c10Horde) (some c7Summoner) [] =
      (true, [],
        some { c7Summoner with hpValue := some 9, hpTemp := some 2 }) := by
  refine ⟨⟨by decide, by decide⟩, ?_⟩
  have := c10_no_link_required ⟨true, true, true, true, true⟩ c10Horde c7Summoner []
    (by decide) (by decide) (by decide)
  simpa [c10Horde] using this

/-! C8 — no self-link -/

/-- Claim C8: For every identifier `x` and every `syncOptions` argument,
`linkHorde x x opts` fails: it returns `false` and mutates nothing — the
actor registry and the guard set come back exactly as they were, so no Link
is created or updated, no sync runs, and no entity document is written. -/
theorem c8_no_self_link (o : WriteOracle) (now : Int) (g : Game)
    (x : String) (opts : Option SyncOptions) (guard : List String) :
    linkHorde o now g x x opts guard = (false, g, guard) := by
  simp [linkHorde]

/-! C2 — store-write failure surfacing

The Modifier Writer (`updateEffectModifiers`) does catch its store-write
failure, log it, and return `false` without throwing.  But
`syncSummonerToHorde` never reads that boolean (`await
updateEffectModifiers(...)` discards the result), so a failed modifier write
does not make `syncSummonerToHorde` return `false`: when the subsequent
`horde.update` succeeds the sync still reports `true`. -/

/-- Claim C2 counterexample: A concrete run in which the modifier-write step
fails — `updateEffectModifiers` returns `false` — yet `syncSummonerToHorde`
returns `true`, refuting "syncSummonerToHorde returns false whenever
updateEffectModifiers fails". -/
theorem c2_store_failure_counterexample :
    (updateEffectModifiers c2Oracle c2Bond
        (calculateModifiers c2Summoner c2Horde (getSyncOptions c2Horde))
        (getSyncOptions c2Horde)).1 = false ∧
    (syncSummonerToHorde c2Oracle 0 (some c2Summoner) (some c2Horde) []).1 = true := by
  decide

/-- Claim C2 amended: A failing modifier write is caught inside the Modifier
Writer, surfaced as `updateEffectModifiers`' own boolean `false` with the
effect document unchanged, and no exception escapes `syncSummonerToHorde`;
but `syncSummonerToHorde` discards that boolean, and (for a present, linked,
unguarded pair) its return value equals the success of its own
`horde.update` write alone, independent of the modifier-write outcome. -/
theorem c2_store_failure_amended (o : WriteOracle) (now : Int)
    (s h : Actor) (e : Item) (guard : List String)
    (hg : h.id ∉ guard) (hbond : findBondEffect h = some e) :
    (syncSummonerToHorde o now (some s) (some h) guard).1 = o.hordeUpdateOk ∧
    (o.effectUpdateOk = false →
      ∀ m opts, updateEffectModifiers o e m opts = (false, e)) := by
  constructor
  · simp only [syncSummonerToHorde, hbond]
    by_cases ho : o.hordeUpdateOk <;> simp [ho, hg]
  · intro hfail m opts
    simp [updateEffectModifiers, hfail]

/-- Witness for the amended C2 statement at the concrete failing oracle. -/
theorem c2_store_failure_amended_witness :
    (c2Horde.id ∉ ([] : List String) ∧ findBondEffect c2Horde = some c2Bond) ∧
    (syncSummonerToHorde c2Oracle 0 (some c2Summoner) (some c2Horde) []).1 =
      c2Oracle.hordeUpdateOk := by
  refine ⟨⟨by decide, by decide⟩, ?_⟩
  exact (c2_store_failure_amended c2Oracle 0 c2Summoner c2Horde c2Bond []
    (by decide) (by decide)).1

/-! C9 — zero enabled categories is a no-op write -/

/-- Claim C9: For a linked horde whose stored `syncOptions` has all four
categories disabled, `syncSummonerToHorde` performs a no-op write: it
replaces the bond effect's rule list with the empty list, copies no HP value
onto the horde (the resulting document keeps the horde's `hpValue` and
`hpTemp`), still stamps `lastSync`, restores the guard set, and returns
`true`. -/
theorem c9_zero_enabled_categories (o : WriteOracle) (now : Int)
    (s h : Actor) (e : Item) (guard : List String)
    (hbond : findBondEffect h = some e)
    (hopts : e.flagSyncOptions = some allOff)
    (hg : h.id ∉ guard)
    (he : o.effectUpdateOk = true) (hw : o.hordeUpdateOk = true) :
    syncSummonerToHorde o now (some s) (some h) guard =
      (true, guard,
        some { setBondItem h { e with rules := [] } with lastSync := some now }) ∧
    (setBondItem h { e with rules := [] }).hpValue = h.hpValue ∧
    (setBondItem h { e with rules := [] }).hpTemp = h.hpTemp := by
  have hopts' : getSyncOptions h = allOff := by
    simp [getSyncOptions, hbond, hopts]
  refine ⟨?_, rfl, rfl⟩
  simp only [syncSummonerToHorde, hbond, hopts']
  simp [allOff, calculateModifiers, buildRules, updateEffectModifiers, he, hw, hg,
    guardDelete_cons_self guard h.id hg]

/-- Witness for C9: the stale rule list is replaced by `[]`, HP stays at the
horde's own values, `lastSync` is stamped, and the call returns `true`. -/
theorem c9_zero_enabled_categories_witness :
    (findBondEffect c9Horde = some c9Bond ∧
     c9Bond.flagSyncOptions = some allOff ∧
     c9Horde.id ∉ ([] : List String)) ∧
    syncSummonerToHorde ⟨true, true, true, true, true⟩ 42
        (some c7Summoner) (some c9Horde) [] =
      (true, [],
        some { c9Horde with
          items := [{ c9Bond with rules := [] }]
          lastSync := some 42 }) := by
  refine ⟨⟨by decide, by decide, by decide⟩, ?_⟩
  have h := (c9_zero_enabled_categories ⟨true, true, true, true, true⟩ 42
    c7Summoner c9Horde c9Bond []
    (by decide) (by decide) (by decide) (by decide) (by decide)).1
  rw [h]
  decide

/-! C3 — linkHorde with omitted syncOptions on an already-linked horde

The claim says this call succeeds, updates the Link's `summonerId` in place
while preserving the stored `syncOptions`, and then syncs once.  The code
cannot do that: in the already-linked branch the update object literal calls
`buildSyncDescription(syncOptions)` with `syncOptions === undefined`, which
throws `TypeError: Cannot read properties of undefined (reading 'ac')`
before `effect.update` is ever invoked; `linkHorde`'s catch block logs it and
returns `false`, with no document written and no sync run.  The function's
own JSDoc (`@param {SyncOptions} [syncOptions] - ... (defaults to all)`) and
the spec both promise an omitted argument works, so this is a code bug. -/

/-- **C3 (code bug)** For every already-linked horde and resolvable,
modifiable summoner with distinct identifiers, calling `linkHorde` with the
`syncOptions` argument omitted returns `false` and mutates nothing: the
registry and guard set are returned unchanged (no `summonerId` update, no
description rewrite, no sync), for every write oracle — the thrown TypeError
aborts the branch before any store write. -/
theorem c3_omitted_options_throws (o : WriteOracle) (now : Int) (g : Game)
    (summonerId hordeId : String) (s h : Actor) (e : Item)
    (guard : List String)
    (hne : (summonerId == hordeId) = false)
    (hs : getActor g summonerId = some s)
    (hh : getActor g hordeId = some h)
    (hms : canModifyActor g.isGM (some s) = true)
    (hmh : canModifyActor g.isGM (some h) = true)
    (hbond : findBondEffect h = some e) :
    linkHorde o now g summonerId hordeId none guard = (false, g, guard) := by
  simp [linkHorde, hne, hs, hh, hms, hmh, hbond]

/-- Witness for C3 at the concrete failing input
`linkHorde("s1", "h1", undefined)` on an already-linked horde: the call
returns `false` and the registry still holds `summonerId = "s0"` and the old
`syncOptions`. -/
theorem c3_omitted_options_throws_witness :
    (("s1" == "h1") = false ∧
     canModifyActor c3Game.isGM (getActor c3Game "s1") = true ∧
     canModifyActor c3Game.isGM (getActor c3Game "h1") = true) ∧
    linkHorde ⟨true, true, true, true, true⟩ 0 c3Game "s1" "h1" none [] =
      (false, c3Game, []) := by
  refine ⟨⟨by decide, by decide, by decide⟩, ?_⟩
  exact c3_omitted_options_throws ⟨true, true, true, true, true⟩ 0 c3Game
    "s1" "h1" (c3Game.actors.get ⟨0, by decide⟩) (c3Game.actors.get ⟨1, by decide⟩)
    ((c3Game.actors.get ⟨1, by decide⟩).items.get ⟨0, by decide⟩) []
    (by decide) (by decide) (by decide) (by decide) (by decide) (by decide)

/-! The rule scan, pointwise -/

theorem lastValue_cons (r : Rule) (rest : List Rule) (sel : String) (v : Int) :
    lastValue (r :: rest) sel v =
      lastValue rest sel
        (if r.key == "FlatModifier" && r.label == EFFECT_LABEL && r.selector == sel then
          r.value.getD 0
        else v) := rfl

theorem applyRuleStep_apply (cur : String → Option Int) (r : Rule) (sel : String) :
    applyRuleStep cur r sel =
      if r.key == "FlatModifier" && r.label == EFFECT_LABEL && r.selector == sel then
        (cur sel).map (fun _ => r.value.getD 0)
      else cur sel := by
  unfold applyRuleStep
  by_cases hq : (r.key == "FlatModifier" && r.label == EFFECT_LABEL) = true
  · rw [if_pos hq]
    by_cases hsel : (r.selector == sel) = true
    · have hcond : (r.key == "FlatModifier" && r.label == EFFECT_LABEL && r.selector == sel) = true := by
        simp only [Bool.and_eq_true] at hq ⊢
        exact ⟨hq, hsel⟩
      rw [if_pos hcond]
      have hsel' : r.selector = sel := by simpa using hsel
      subst hsel'
      cases hc : cur r.selector with
      | none => simp [hc]
      | some v => simp [hc]
    · have hsel' : (r.selector == sel) = false := by
        simpa using hsel
      have hcond : ¬((r.key == "FlatModifier" && r.label == EFFECT_LABEL && r.selector == sel) = true) := by
        simp [hsel']
      rw [if_neg hcond]
      cases hc : cur r.selector with
      | none => simp [hc]
      | some v =>
        simp only [hc]
        have hss : (sel == r.selector) = false := by
          simp only [beq_eq_false_iff_ne, ne_eq] at hsel' ⊢
          exact fun he => hsel' he.symm
        simp [hss]
  · have hcond : ¬((r.key == "FlatModifier" && r.label == EFFECT_LABEL && r.selector == sel) = true) := by
      simp only [Bool.and_eq_true, not_and] at hq ⊢
      intro h1 h2
      exact hq h1.1 h1.2
    rw [if_neg hq, if_neg hcond]

/-- The rule scan acts independently per selector: its result at `sel` is the
last qualifying value for `sel` (when `sel` is tracked at all). -/
theorem applyRules_apply (rules : List Rule) (cur : String → Option Int)
    (sel : String) :
    applyRules rules cur sel = (cur sel).map (lastValue rules sel) := by
  induction rules generalizing cur with
  | nil => cases h : cur sel <;> simp [applyRules, lastValue, h]
  | cons r rest ih =>
    have hcons : applyRules (r :: rest) cur = applyRules rest (applyRuleStep cur r) := rfl
    rw [hcons, ih (applyRuleStep cur r), applyRuleStep_apply]
    by_cases hq : (r.key == "FlatModifier" && r.label == EFFECT_LABEL && r.selector == sel) = true
    · rw [if_pos hq]
      cases hc : cur sel with
      | none => simp
      | some v =>
        simp only [Option.map_some']
        rw [lastValue_cons, if_pos hq]
    · rw [if_neg hq]
      cases hc : cur sel with
      | none => simp
      | some v =>
        simp only [Option.map_some']
        rw [lastValue_cons, if_neg hq]

/-- The applied offset at a selector depends on the option set only through
whether that one selector is tracked. -/
theorem appliedOffset_congr (h : Actor) (opts1 opts2 : SyncOptions)
    (sel : String)
    (hinit : initCurrentMods opts2 sel = initCurrentMods opts1 sel) :
    appliedOffset h opts2 sel = appliedOffset h opts1 sel := by
  simp [appliedOffset, applyRules_apply, hinit]

/-! C1 — idempotence of the delta computation -/

/-- Claim C1: Idempotence: fix a summoner `s`, a horde `h0` (first-run state)
and the stored option set `opts`; let the first run compute
`m1 = calculateModifiers s h0 opts` and write `buildRules m1 opts` into the
bond.  For any second-run horde state `h1` whose bond now carries exactly
those rules and whose effective stats already include the currently applied
modifier set — per enabled category,
`effective = (first-run effective − first-run applied offset) + currently
applied offset` — the second run computes exactly the same modifier set:
`calculateModifiers s h1 opts = m1`.  Offsets never compound because the
currently applied offset is subtracted before the base is recovered. -/
theorem c1_idempotent_delta (s h0 h1 : Actor) (opts : SyncOptions)
    (hrules : bondRules h1 = buildRules (calculateModifiers s h0 opts) opts)
    (hac : opts.ac = true →
      h1.ac.getD 10 =
        (h0.ac.getD 10 - appliedOffset h0 opts "ac") + appliedOffset h1 opts "ac")
    (hfort : opts.saves = true →
      h1.fortitude.getD 0 =
        (h0.fortitude.getD 0 - appliedOffset h0 opts "fortitude") +
          appliedOffset h1 opts "fortitude")
    (href : opts.saves = true →
      h1.reflex.getD 0 =
        (h0.reflex.getD 0 - appliedOffset h0 opts "reflex") +
          appliedOffset h1 opts "reflex")
    (hwill : opts.saves = true →
      h1.will.getD 0 =
        (h0.will.getD 0 - appliedOffset h0 opts "will") +
          appliedOffset h1 opts "will")
    (hskills : ∀ sk ∈ SKILLS, opts.skills = true →
      (h1.skills.lookup sk).getD 0 =
        ((h0.skills.lookup sk).getD 0 - appliedOffset h0 opts sk) +
          appliedOffset h1 opts sk)
    (hhp : opts.hp = true →
      h1.hpMax.getD 0 =
        (h0.hpMax.getD 0 - appliedOffset h0 opts "hp") + appliedOffset h1 opts "hp") :
    calculateModifiers s h1 opts = calculateModifiers s h0 opts := by
  simp only [calculateModifiers, StatModifiers.mk.injEq]
  refine ⟨?_, ?_, ?_, ?_, ?_, ?_⟩
  · cases hb : opts.ac with
    | false => simp [hb]
    | true =>
      have h := hac hb
      simp only [appliedOffset] at h
      simp only [hb, if_true]
      rw [h]
      congr 1
      omega
  · cases hb : opts.saves with
    | false => simp [hb]
    | true =>
      have h := hfort hb
      simp only [appliedOffset] at h
      simp only [hb, if_true]
      rw [h]
      congr 1
      omega
  · cases hb : opts.saves with
    | false => simp [hb]
    | true =>
      have h := href hb
      simp only [appliedOffset] at h
      simp only [hb, if_true]
      rw [h]
      congr 1
      omega
  · cases hb : opts.saves with
    | false => simp [hb]
    | true =>
      have h := hwill hb
      simp only [appliedOffset] at h
      simp only [hb, if_true]
      rw [h]
      congr 1
      omega
  · cases hb : opts.skills with
    | false => simp [hb]
    | true =>
      simp only [hb, if_true]
      refine List.map_congr_left ?_
      intro sk hsk
      have h := hskills sk hsk hb
      simp only [appliedOffset] at h
      simp only [Prod.mk.injEq, true_and]
      rw [h]
      omega
  · cases hb : opts.hp with
    | false => simp [hb]
    | true =>
      have h := hhp hb
      simp only [appliedOffset] at h
      simp only [hb, if_true]
      rw [h]
      congr 1
      omega

/-- Witness for C1 at a fully concrete summoner/horde pair with all four
categories enabled: the second run recomputes exactly the first run's
modifier set. -/
theorem c1_idempotent_delta_witness :
    (bondRules c1Horde1 =
      buildRules (calculateModifiers c1Summoner c1Horde0 DEFAULT_SYNC_OPTIONS)
        DEFAULT_SYNC_OPTIONS ∧
     c1Horde1.ac.getD 10 =
      (c1Horde0.ac.getD 10 - appliedOffset c1Horde0 DEFAULT_SYNC_OPTIONS "ac") +
        appliedOffset c1Horde1 DEFAULT_SYNC_OPTIONS "ac") ∧
    calculateModifiers c1Summoner c1Horde1 DEFAULT_SYNC_OPTIONS =
      calculateModifiers c1Summoner c1Horde0 DEFAULT_SYNC_OPTIONS := by
  refine ⟨⟨by decide, by decide⟩, ?_⟩
  exact c1_idempotent_delta c1Summoner c1Horde0 c1Horde1 DEFAULT_SYNC_OPTIONS
    (by decide) (by decide) (by decide) (by decide) (by decide)
    (by decide) (by decide)

/-! C4 machinery -/

theorem lookup_map_self (l : List String) (g : String → Int) (a : String)
    (ha : a ∈ l) :
    List.lookup a (l.map (fun x => (x, g x))) = some (g a) := by
  induction l with
  | nil => cases ha
  | cons b t ih =>
    simp only [List.map_cons, List.lookup]
    by_cases hab : a = b
    · subst hab
      simp
    · have hb : (a == b) = false := by simp [hab]
      rw [hb]
      apply ih
      rcases List.mem_cons.mp ha with h | h
      · exact absurd h hab
      · exact h

theorem filterMap_eq_map_of_forall_some {α β : Type} (l : List α)
    (f : α → Option β) (g : α → β) (h : ∀ a ∈ l, f a = some (g a)) :
    l.filterMap f = l.map g := by
  induction l with
  | nil => rfl
  | cons b t ih =>
    rw [List.filterMap_cons, h b (List.mem_cons_self b t), List.map_cons,
      ih (fun a ha => h a (List.mem_cons_of_mem b ha))]

/-- When the modifier object's skill entries come from a full pass over
`SKILLS` (as `calculateModifiers` produces them), every lookup in the
Modifier Writer succeeds, so its `filterMap` is a plain `map`. -/
theorem filterMap_lookup_map (F : String → Int) :
    (SKILLS.filterMap (fun sk =>
      match List.lookup sk (SKILLS.map (fun x => (x, F x))) with
      | some v => some (modRule sk v)
      | none => none)) = SKILLS.map (fun sk => modRule sk (F sk)) := by
  apply filterMap_eq_map_of_forall_some
  intro a ha
  rw [lookup_map_self SKILLS F a ha]

/-- General shape of the persisted rule list: the Modifier Writer, fed the
Delta Calculator's output, writes exactly one `FlatModifier` entry per
enabled category, tagged with the category selector and the bond label. -/
theorem buildRules_calc_tags (s h : Actor) (opts : SyncOptions) :
    (buildRules (calculateModifiers s h opts) opts).map
        (fun r => (r.key, r.selector, r.label)) = ruleTags opts := by
  rcases opts with ⟨oac, osaves, oskills, ohp⟩
  cases oac <;> cases osaves <;> cases oskills <;> cases ohp <;>
    (simp [buildRules, calculateModifiers]
     try rw [filterMap_lookup_map]
     try simp [ruleTags, modRule, List.map_map, Function.comp])

theorem filter_keep_chunk (sel : String) (hsel : sel ∉ SKILLS)
    (mv : Option Int) :
    ((match mv with
      | some v => [modRule sel v]
      | none => []) : List Rule).filter (fun r => !(SKILLS.contains r.selector)) =
      (match mv with
       | some v => [modRule sel v]
       | none => []) := by
  cases mv <;> simp [modRule, hsel]

theorem filter_skills_filterMap (msk : List (String × Int)) :
    ((SKILLS.filterMap (fun sk =>
        match List.lookup sk msk with
        | some v => some (modRule sk v)
        | none => none)).filter (fun r => !(SKILLS.contains r.selector))) = [] := by
  rw [List.filter_eq_nil_iff]
  intro r hr
  simp only [List.mem_filterMap] at hr
  obtain ⟨sk, hsk, hmk⟩ := hr
  cases hl : List.lookup sk msk with
  | none => rw [hl] at hmk; cases hmk
  | some v =>
    rw [hl] at hmk
    have hr' : r = modRule sk v := by
      simpa using hmk.symm
    subst hr'
    simp [modRule, hsk]

/-- Dropping the skills category from the options and blanking the skills
entries of the modifier set turns the written rule list into exactly the
previous rule list with every skill-selector entry removed. -/
theorem buildRules_skills_off (m : StatModifiers) (opts : SyncOptions) :
    buildRules { m with skills := [] } { opts with skills := false } =
      (buildRules m opts).filter (fun r => !(SKILLS.contains r.selector)) := by
  rcases m with ⟨mac, mfort, mref, mwill, msk, mhp⟩
  rcases opts with ⟨oac, osaves, oskills, ohp⟩
  simp only [buildRules, List.filter_append]
  refine congrArg₂ HAppend.hAppend (congrArg₂ HAppend.hAppend
    (congrArg₂ HAppend.hAppend ?_ ?_) ?_) ?_
  · cases oac with
    | false => rfl
    | true => simpa using (filter_keep_chunk "ac" (by decide) mac).symm
  · cases osaves with
    | false => rfl
    | true =>
      simp only [if_true, List.filter_append]
      refine congrArg₂ HAppend.hAppend (congrArg₂ HAppend.hAppend ?_ ?_) ?_
      · exact (filter_keep_chunk "fortitude" (by decide) mfort).symm
      · exact (filter_keep_chunk "reflex" (by decide) mref).symm
      · exact (filter_keep_chunk "will" (by decide) mwill).symm
  · cases oskills with
    | false => rfl
    | true => simpa using (filter_skills_filterMap msk).symm
  · cases ohp with
    | false => rfl
    | true => simpa using (filter_keep_chunk "hp" (by decide) mhp).symm

/-- Lemma: `initCurrentMods` at a non-skill selector does not depend on the skills
toggle. -/
theorem initCurrentMods_sksOff (oac osaves osk ohp : Bool) (sel : String)
    (hsel : sel ∉ SKILLS) :
    initCurrentMods ⟨oac, osaves, false, ohp⟩ sel =
      initCurrentMods ⟨oac, osaves, osk, ohp⟩ sel := by
  simp [initCurrentMods, hsel]

/-! C4 — category isolation / retroactive clearing -/

/-- Claim C4: (i) The rule list the Modifier Writer persists contains exactly
one entry per enabled category, each tagged `FlatModifier` with its category
selector and the fixed bond-owner label (`ruleTags`).  (ii)+(iii) Disabling
`skills` and re-syncing (second-run horde `h1` whose bond carries the rules
of the first run and whose effective stats include the applied offsets, as
in C1) recomputes the still-enabled AC/saves/HP modifiers to exactly their
first-run values with no skill entries, and the newly persisted rule list is
exactly the previous rule list with every skill-selector entry removed. -/
theorem c4_category_isolation (s h0 h1 : Actor) (opts1 : SyncOptions)
    (hsk1 : opts1.skills = true)
    (hrules1 : bondRules h1 = buildRules (calculateModifiers s h0 opts1) opts1)
    (hac : opts1.ac = true →
      h1.ac.getD 10 =
        (h0.ac.getD 10 - appliedOffset h0 opts1 "ac") + appliedOffset h1 opts1 "ac")
    (hfort : opts1.saves = true →
      h1.fortitude.getD 0 =
        (h0.fortitude.getD 0 - appliedOffset h0 opts1 "fortitude") +
          appliedOffset h1 opts1 "fortitude")
    (href : opts1.saves = true →
      h1.reflex.getD 0 =
        (h0.reflex.getD 0 - appliedOffset h0 opts1 "reflex") +
          appliedOffset h1 opts1 "reflex")
    (hwill : opts1.saves = true →
      h1.will.getD 0 =
        (h0.will.getD 0 - appliedOffset h0 opts1 "will") +
          appliedOffset h1 opts1 "will")
    (hhp : opts1.hp = true →
      h1.hpMax.getD 0 =
        (h0.hpMax.getD 0 - appliedOffset h0 opts1 "hp") + appliedOffset h1 opts1 "hp") :
    (buildRules (calculateModifiers s h1 { opts1 with skills := false })
        { opts1 with skills := false }).map (fun r => (r.key, r.selector, r.label)) =
      ruleTags { opts1 with skills := false } ∧
    calculateModifiers s h1 { opts1 with skills := false } =
      { calculateModifiers s h0 opts1 with skills := [] } ∧
    buildRules (calculateModifiers s h1 { opts1 with skills := false })
        { opts1 with skills := false } =
      (buildRules (calculateModifiers s h0 opts1) opts1).filter
        (fun r => !(SKILLS.contains r.selector)) := by
  have hc : calculateModifiers s h1 { opts1 with skills := false } =
      { calculateModifiers s h0 opts1 with skills := [] } := by
    rcases opts1 with ⟨oac, osaves, osk, ohp⟩
    simp only [calculateModifiers, StatModifiers.mk.injEq]
    refine ⟨?_, ?_, ?_, ?_, ?_, ?_⟩
    · cases hb : oac with
      | false => simp [hb]
      | true =>
        have hoff : appliedOffset h1 ⟨oac, osaves, false, ohp⟩ "ac" =
            appliedOffset h1 ⟨oac, osaves, osk, ohp⟩ "ac" :=
          appliedOffset_congr h1 ⟨oac, osaves, osk, ohp⟩ ⟨oac, osaves, false, ohp⟩
            "ac" (initCurrentMods_sksOff oac osaves osk ohp "ac" (by decide))
        have h := hac hb
        simp only [appliedOffset] at hoff h
        simp only [hb] at hoff h
        simp only [hb, if_true]
        rw [hoff, h]
        congr 1
        omega
    · cases hb : osaves with
      | false => simp [hb]
      | true =>
        have hoff : appliedOffset h1 ⟨oac, osaves, false, ohp⟩ "fortitude" =
            appliedOffset h1 ⟨oac, osaves, osk, ohp⟩ "fortitude" :=
          appliedOffset_congr h1 ⟨oac, osaves, osk, ohp⟩ ⟨oac, osaves, false, ohp⟩
            "fortitude" (initCurrentMods_sksOff oac osaves osk ohp "fortitude" (by decide))
        have h := hfort hb
        simp only [appliedOffset] at hoff h
        simp only [hb] at hoff h
        simp only [hb, if_true]
        rw [hoff, h]
        congr 1
        omega
    · cases hb : osaves with
      | false => simp [hb]
      | true =>
        have hoff : appliedOffset h1 ⟨oac, osaves, false, ohp⟩ "reflex" =
            appliedOffset h1 ⟨oac, osaves, osk, ohp⟩ "reflex" :=
          appliedOffset_congr h1 ⟨oac, osaves, osk, ohp⟩ ⟨oac, osaves, false, ohp⟩
            "reflex" (initCurrentMods_sksOff oac osaves osk ohp "reflex" (by decide))
        have h := href hb
        simp only [appliedOffset] at hoff h
        simp only [hb] at hoff h
        simp only [hb, if_true]
        rw [hoff, h]
        congr 1
        omega
    · cases hb : osaves with
      | false => simp [hb]
      | true =>
        have hoff : appliedOffset h1 ⟨oac, osaves, false, ohp⟩ "will" =
            appliedOffset h1 ⟨oac, osaves, osk, ohp⟩ "will" :=
          appliedOffset_congr h1 ⟨oac, osaves, osk, ohp⟩ ⟨oac, osaves, false, ohp⟩
            "will" (initCurrentMods_sksOff oac osaves osk ohp "will" (by decide))
        have h := hwill hb
        simp only [appliedOffset] at hoff h
        simp only [hb] at hoff h
        simp only [hb, if_true]
        rw [hoff, h]
        congr 1
        omega
    · simp
    · cases hb : ohp with
      | false => simp [hb]
      | true =>
        have hoff : appliedOffset h1 ⟨oac, osaves, false, ohp⟩ "hp" =
            appliedOffset h1 ⟨oac, osaves, osk, ohp⟩ "hp" :=
          appliedOffset_congr h1 ⟨oac, osaves, osk, ohp⟩ ⟨oac, osaves, false, ohp⟩
            "hp" (initCurrentMods_sksOff oac osaves osk ohp "hp" (by decide))
        have h := hhp hb
        simp only [appliedOffset] at hoff h
        simp only [hb] at hoff h
        simp only [hb, if_true]
        rw [hoff, h]
        congr 1
        omega
  refine ⟨buildRules_calc_tags s h1 { opts1 with skills := false }, hc, ?_⟩
  rw [hc]
  exact buildRules_skills_off (calculateModifiers s h0 opts1) opts1

/-- Witness for C4 at the concrete C1 pair: disabling skills after the first
full sync keeps the AC/saves/HP modifiers at their first-run values and
drops exactly the skill entries. -/
theorem c4_category_isolation_witness :
    (DEFAULT_SYNC_OPTIONS.skills = true ∧
     bondRules c1Horde1 =
      buildRules (calculateModifiers c1Summoner c1Horde0 DEFAULT_SYNC_OPTIONS)
        DEFAULT_SYNC_OPTIONS) ∧
    calculateModifiers c1Summoner c1Horde1
        { DEFAULT_SYNC_OPTIONS with skills := false } =
      { calculateModifiers c1Summoner c1Horde0 DEFAULT_SYNC_OPTIONS with
          skills := [] } ∧
    buildRules (calculateModifiers c1Summoner c1Horde1
        { DEFAULT_SYNC_OPTIONS with skills := false })
        { DEFAULT_SYNC_OPTIONS with skills := false } =
      (buildRules (calculateModifiers c1Summoner c1Horde0 DEFAULT_SYNC_OPTIONS)
        DEFAULT_SYNC_OPTIONS).filter (fun r => !(SKILLS.contains r.selector)) := by
  refine ⟨⟨by decide, by decide⟩, ?_⟩
  exact (c4_category_isolation c1Summoner c1Horde0 c1Horde1 DEFAULT_SYNC_OPTIONS
    (by decide) (by decide) (by decide) (by decide) (by decide)
    (by decide) (by decide)).2

end HordeSync
